import Mathlib

/-!
Verification of the CodeAuth GO SDK session-cache subsystem.

The Go source (`main.go`) keeps process-wide globals (endpoint, projectID,
useCache, cacheDuration, cacheSession, cacheExpiration, hasInitialized).
We model them as an explicit `SDKState` record threaded through each
operation.  Wall-clock time is a `Nat` instant passed to each call;
`time.Now().After(e)` becomes `e < now` and `time.Now().Before(e)` becomes
`now < e`.  The HTTP transport is a function from path and request body to
an outcome: a connection-level failure (covering marshal, request build,
network and parse failures, which the Go code all maps to
`{"error":"connection_error"}`) or a parsed JSON object with an HTTP status.
Go panics are modelled with `Except`: `ensureInitialized` / `Initialize`
panics and the `result["session_token"].(string)` type-assertion panic.
JSON objects are association lists of string keys and simple JSON values,
with Go-map style get, set and delete operations.
-/

namespace CodeAuth

/-- A simple JSON value, enough for the SDK's result maps. -/
inductive JVal where
  | s : String → JVal
  | n : Int → JVal
  | b : Bool → JVal
  | null : JVal
deriving DecidableEq, Repr

/-- A parsed JSON object / Go `map[string]interface\x7b\x7d`, as an association list. -/
abbrev JMap : Type := List (String × JVal)

/-- Go map read: `m[k]`, `none` when the key is absent. -/
def jget (m : JMap) (k : String) : Option JVal :=
  match m with
  | [] => none
  | p :: rest => if p.1 = k then some p.2 else jget rest k

/-- Go map write: `m[k] = v` (overwrite in place, or append a new key). -/
def jset (m : JMap) (k : String) (v : JVal) : JMap :=
  match m with
  | [] => [(k, v)]
  | p :: rest => if p.1 = k then (k, v) :: rest else p :: jset rest k v

/-- The session cache: Go `map[string]map[string]interface\x7b\x7d`. -/
abbrev Cache : Type := List (String × JMap)

/-- Cache read: `cached, ok := cacheSession[token]`. -/
def cacheGet (c : Cache) (k : String) : Option JMap :=
  match c with
  | [] => none
  | p :: rest => if p.1 = k then some p.2 else cacheGet rest k

/-- Cache write: `cacheSession[token] = record`. -/
def cacheSet (c : Cache) (k : String) (v : JMap) : Cache :=
  match c with
  | [] => [(k, v)]
  | p :: rest => if p.1 = k then (k, v) :: rest else p :: cacheSet rest k v

/-- Cache delete: `delete(cacheSession, token)` (no-op when absent). -/
def cacheDel (c : Cache) (k : String) : Cache :=
  match c with
  | [] => []
  | p :: rest => if p.1 = k then cacheDel rest k else p :: cacheDel rest k

/-- The package-level mutable globals of `main.go`. -/
structure SDKState where
  hasInitialized : Bool
  endpoint : String
  projectID : String
  useCache : Bool
  cacheDuration : Nat
  cacheSession : Cache
  cacheExpiration : Nat
deriving DecidableEq, Repr

/-- The Go panics the SDK can raise: the two lifecycle panics, and the
`result["session_token"].(string)` type-assertion panic on a success
response without a string `session_token` field. -/
inductive GoPanic where
  | notInitialized
  | alreadyInitialized
  | typeAssertion
deriving DecidableEq, Repr

/-- Outcome of one HTTP POST: a connection-level failure (request marshal,
request build, network or response parse error) or a parsed JSON object
with its HTTP status code. -/
inductive TransportOutcome where
  | connFail : TransportOutcome
  | response : Nat → JMap → TransportOutcome
deriving DecidableEq, Repr

/-- The external HTTP collaborator: path and request body to outcome. -/
def Transport : Type := String → JMap → TransportOutcome

/-- The map `callApiRequest` returns on every connection-level failure. -/
def connectionError : JMap := [("error", JVal.s "connection_error")]

/-- Result post-processing of `callApiRequest`: every failure path returns
`connectionError`; on HTTP status 200 the parsed object's `error` field is
set to `"no_error"`; any other status returns the parsed object as is. -/
def callApiResult : TransportOutcome → JMap
  | .connFail => connectionError
  | .response status body =>
      if status = 200 then jset body "error" (JVal.s "no_error") else body

/-- `callApiRequest(path, body)` of `main.go`, with the network factored
out into the `Transport` collaborator. -/
def callApiRequest (tp : Transport) (path : String) (body : JMap) : JMap :=
  callApiResult (tp path body)

/-- `result["error"] == "no_error"` as the facade tests it. -/
def isNoError (r : JMap) : Bool := jget r "error" = some (JVal.s "no_error")

/-- What one public operation produced: the result map handed back to the
caller, the globals after the call, and whether the Transport was invoked. -/
structure OpOut where
  result : JMap
  st : SDKState
  usedTransport : Bool
deriving DecidableEq, Repr

/-- `ensureCache` of `main.go`: no-op when caching is disabled; when
`time.Now().After(cacheExpiration)` holds (strictly past the stored
instant) reset the expiration to `now + cacheDuration` and clear the map. -/
def ensureCache (st : SDKState) (now : Nat) : SDKState :=
  if !st.useCache then st
  else if st.cacheExpiration < now then
    { st with cacheExpiration := now + st.cacheDuration, cacheSession := [] }
  else st

/-- `Initialize` of `main.go`: panics when already initialized, otherwise
sets every configuration global and an empty cache expiring at
`now + cache_duration`. -/
def Initialize (st : SDKState) (now : Nat) (project_endpoint project_id : String)
    (use_cache : Bool) (cache_duration : Nat) : Except GoPanic SDKState :=
  if st.hasInitialized then .error .alreadyInitialized
  else .ok {
    hasInitialized := true
    endpoint := project_endpoint
    projectID := project_id
    useCache := use_cache
    cacheDuration := cache_duration
    cacheSession := []
    cacheExpiration := now + cache_duration }

/-- The globals after an `Initialize` call: a panic leaves them untouched. -/
def applyInit (st : SDKState) (now : Nat) (pe pid : String) (uc : Bool) (cd : Nat) :
    SDKState :=
  match Initialize st now pe pid uc cd with
  | .ok st2 => st2
  | .error _ => st

/-- `SignInEmail` of `main.go`. -/
def SignInEmail (st : SDKState) (now : Nat) (tp : Transport) (email : String) :
    Except GoPanic OpOut :=
  if !st.hasInitialized then .error .notInitialized
  else
    let st1 := ensureCache st now
    .ok ⟨callApiRequest tp "/signin/email"
          [("project_id", JVal.s st.projectID), ("email", JVal.s email)],
        st1, true⟩

/-- `SignInEmailVerify` of `main.go`: on a `"no_error"` result with caching
enabled, caches the record under `result["session_token"].(string)`; the
type assertion panics unless that field is a string. -/
def SignInEmailVerify (st : SDKState) (now : Nat) (tp : Transport)
    (email code : String) : Except GoPanic OpOut :=
  if !st.hasInitialized then .error .notInitialized
  else
    let st1 := ensureCache st now
    let result := callApiRequest tp "/signin/emailverify"
      [("project_id", JVal.s st.projectID), ("email", JVal.s email),
       ("code", JVal.s code)]
    if st.useCache && isNoError result then
      match jget result "session_token" with
      | some (.s tok) =>
          .ok ⟨result, { st1 with cacheSession := cacheSet st1.cacheSession tok result },
              true⟩
      | _ => .error .typeAssertion
    else .ok ⟨result, st1, true⟩

/-- `SignInSocial` of `main.go`. -/
def SignInSocial (st : SDKState) (now : Nat) (tp : Transport) (socialType : String) :
    Except GoPanic OpOut :=
  if !st.hasInitialized then .error .notInitialized
  else
    let st1 := ensureCache st now
    .ok ⟨callApiRequest tp "/signin/social"
          [("project_id", JVal.s st.projectID), ("social_type", JVal.s socialType)],
        st1, true⟩

/-- `SignInSocialVerify` of `main.go`: same caching shape as email verify. -/
def SignInSocialVerify (st : SDKState) (now : Nat) (tp : Transport)
    (socialType authorizationCode : String) : Except GoPanic OpOut :=
  if !st.hasInitialized then .error .notInitialized
  else
    let st1 := ensureCache st now
    let result := callApiRequest tp "/signin/socialverify"
      [("project_id", JVal.s st.projectID), ("social_type", JVal.s socialType),
       ("authorization_code", JVal.s authorizationCode)]
    if st.useCache && isNoError result then
      match jget result "session_token" with
      | some (.s tok) =>
          .ok ⟨result, { st1 with cacheSession := cacheSet st1.cacheSession tok result },
              true⟩
      | _ => .error .typeAssertion
    else .ok ⟨result, st1, true⟩

/-- `SessionInfo` of `main.go`: returns the cached record when caching is
enabled, `time.Now().Before(cacheExpiration)` holds and the token is
present; otherwise calls the Transport and caches a `"no_error"` result
under the requested token. -/
def SessionInfo (st : SDKState) (now : Nat) (tp : Transport) (sessionToken : String) :
    Except GoPanic OpOut :=
  if !st.hasInitialized then .error .notInitialized
  else
    let st1 := ensureCache st now
    match (if st.useCache && decide (now < st1.cacheExpiration)
           then cacheGet st1.cacheSession sessionToken else none) with
    | some cached => .ok ⟨cached, st1, false⟩
    | none =>
      let result := callApiRequest tp "/session/info"
        [("project_id", JVal.s st.projectID), ("session_token", JVal.s sessionToken)]
      if st.useCache && isNoError result then
        .ok ⟨result,
            { st1 with cacheSession := cacheSet st1.cacheSession sessionToken result },
            true⟩
      else .ok ⟨result, st1, true⟩

/-- `SessionRefresh` of `main.go`: on a `"no_error"` result with caching
enabled, deletes the old token and inserts the new one (read with a
panicking type assertion) in one critical section. -/
def SessionRefresh (st : SDKState) (now : Nat) (tp : Transport) (sessionToken : String) :
    Except GoPanic OpOut :=
  if !st.hasInitialized then .error .notInitialized
  else
    let st1 := ensureCache st now
    let result := callApiRequest tp "/session/refresh"
      [("project_id", JVal.s st.projectID), ("session_token", JVal.s sessionToken)]
    if st.useCache && isNoError result then
      match jget result "session_token" with
      | some (.s newToken) =>
          .ok ⟨result,
              { st1 with cacheSession :=
                  cacheSet (cacheDel st1.cacheSession sessionToken) newToken result },
              true⟩
      | _ => .error .typeAssertion
    else .ok ⟨result, st1, true⟩

/-- `SessionInvalidate` of `main.go`: on a `"no_error"` result with caching
enabled, deletes the token from the cache. -/
def SessionInvalidate (st : SDKState) (now : Nat) (tp : Transport)
    (sessionToken invalidateType : String) : Except GoPanic OpOut :=
  if !st.hasInitialized then .error .notInitialized
  else
    let st1 := ensureCache st now
    let result := callApiRequest tp "/session/invalidate"
      [("project_id", JVal.s st.projectID), ("session_token", JVal.s sessionToken),
       ("invalidate_type", JVal.s invalidateType)]
    if st.useCache && isNoError result then
      .ok ⟨result, { st1 with cacheSession := cacheDel st1.cacheSession sessionToken },
          true⟩
    else .ok ⟨result, st1, true⟩

/-- The seven public facade operations, as one syntactic class. -/
inductive Op where
  | signInEmail (email : String)
  | signInEmailVerify (email code : String)
  | signInSocial (socialType : String)
  | signInSocialVerify (socialType authorizationCode : String)
  | sessionInfo (sessionToken : String)
  | sessionRefresh (sessionToken : String)
  | sessionInvalidate (sessionToken invalidateType : String)
deriving DecidableEq, Repr

/-- Dispatch one public operation. -/
def runOp (op : Op) (st : SDKState) (now : Nat) (tp : Transport) :
    Except GoPanic OpOut :=
  match op with
  | .signInEmail e => SignInEmail st now tp e
  | .signInEmailVerify e c => SignInEmailVerify st now tp e c
  | .signInSocial ty => SignInSocial st now tp ty
  | .signInSocialVerify ty ac => SignInSocialVerify st now tp ty ac
  | .sessionInfo tok => SessionInfo st now tp tok
  | .sessionRefresh tok => SessionRefresh st now tp tok
  | .sessionInvalidate tok ty => SessionInvalidate st now tp tok ty

/-- The request path each operation POSTs to. -/
def opPath : Op → String
  | .signInEmail _ => "/signin/email"
  | .signInEmailVerify _ _ => "/signin/emailverify"
  | .signInSocial _ => "/signin/social"
  | .signInSocialVerify _ _ => "/signin/socialverify"
  | .sessionInfo _ => "/session/info"
  | .sessionRefresh _ => "/session/refresh"
  | .sessionInvalidate _ _ => "/session/invalidate"

/-- The request body each operation POSTs. -/
def opBody : Op → SDKState → JMap
  | .signInEmail e, st =>
      [("project_id", JVal.s st.projectID), ("email", JVal.s e)]
  | .signInEmailVerify e c, st =>
      [("project_id", JVal.s st.projectID), ("email", JVal.s e), ("code", JVal.s c)]
  | .signInSocial ty, st =>
      [("project_id", JVal.s st.projectID), ("social_type", JVal.s ty)]
  | .signInSocialVerify ty ac, st =>
      [("project_id", JVal.s st.projectID), ("social_type", JVal.s ty),
       ("authorization_code", JVal.s ac)]
  | .sessionInfo tok, st =>
      [("project_id", JVal.s st.projectID), ("session_token", JVal.s tok)]
  | .sessionRefresh tok, st =>
      [("project_id", JVal.s st.projectID), ("session_token", JVal.s tok)]
  | .sessionInvalidate tok ty, st =>
      [("project_id", JVal.s st.projectID), ("session_token", JVal.s tok),
       ("invalidate_type", JVal.s ty)]

/-- Under which cache key an operation populates the cache: the verify
operations cache under the result's `session_token` string, `SessionInfo`
under its argument; no other operation inserts. -/
def popKey : Op → JMap → Option String
  | .signInEmailVerify _ _, r =>
      match jget r "session_token" with
      | some (.s t) => some t
      | _ => none
  | .signInSocialVerify _ _, r =>
      match jget r "session_token" with
      | some (.s t) => some t
      | _ => none
  | .sessionInfo tok, _ => some tok
  | _, _ => none

/-- Every record in the cache carries `error == "no_error"`. -/
def cacheOK (c : Cache) : Bool := c.all (fun p => isNoError p.2)

/-- The zero value of the package globals before `Initialize`. -/
def initialState : SDKState :=
  { hasInitialized := false, endpoint := "", projectID := "", useCache := false,
    cacheDuration := 0, cacheSession := [], cacheExpiration := 0 }

/-- SDK states observable at the package boundary: the state right after a
successful `Initialize` from the zero globals, and every state a public
operation produces from an observable one. -/
inductive Reachable : SDKState → Prop where
  | initialized (now : Nat) (pe pid : String) (uc : Bool) (cd : Nat) (st : SDKState)
      (h : Initialize initialState now pe pid uc cd = Except.ok st) : Reachable st
  | step (op : Op) (st : SDKState) (now : Nat) (tp : Transport) (o : OpOut)
      (h1 : Reachable st) (h2 : runOp op st now tp = Except.ok o) : Reachable o.st

/-! ### Basic lemmas about the map and cache operations -/

theorem jget_jset_self (m : JMap) (k : String) (v : JVal) :
    jget (jset m k v) k = some v := by
  induction m with
  | nil => simp [jset, jget]
  | cons p rest ih =>
    by_cases h : p.1 = k
    · simp [jset, jget, h]
    · simp [jset, jget, h, ih]

theorem cacheGet_cacheSet_self (c : Cache) (k : String) (v : JMap) :
    cacheGet (cacheSet c k v) k = some v := by
  induction c with
  | nil => simp [cacheSet, cacheGet]
  | cons p rest ih =>
    by_cases h : p.1 = k
    · simp [cacheSet, cacheGet, h]
    · simp [cacheSet, cacheGet, h, ih]

theorem cacheGet_cacheSet_ne (c : Cache) (k k' : String) (v : JMap) (h : k' ≠ k) :
    cacheGet (cacheSet c k v) k' = cacheGet c k' := by
  induction c with
  | nil => simp [cacheSet, cacheGet, Ne.symm h]
  | cons p rest ih =>
    by_cases hp : p.1 = k
    · subst hp
      simp [cacheSet, cacheGet, Ne.symm h]
    · simp only [cacheSet, hp, if_false, cacheGet]
      by_cases hp' : p.1 = k'
      · simp [cacheGet, hp']
      · simp [cacheGet, hp', ih]

theorem cacheGet_cacheDel_self (c : Cache) (k : String) :
    cacheGet (cacheDel c k) k = none := by
  induction c with
  | nil => simp [cacheDel, cacheGet]
  | cons p rest ih =>
    by_cases h : p.1 = k
    · simp [cacheDel, h, ih]
    · simp [cacheDel, cacheGet, h, ih]

theorem cacheGet_cacheDel_ne (c : Cache) (k k' : String) (h : k' ≠ k) :
    cacheGet (cacheDel c k) k' = cacheGet c k' := by
  induction c with
  | nil => simp [cacheDel]
  | cons p rest ih =>
    by_cases hp : p.1 = k
    · subst hp
      simp [cacheDel, cacheGet, Ne.symm h, ih]
    · simp [cacheDel, cacheGet, hp, ih]

theorem cacheOK_cacheSet (c : Cache) (k : String) (r : JMap)
    (hc : cacheOK c = true) (hr : isNoError r = true) :
    cacheOK (cacheSet c k r) = true := by
  induction c with
  | nil => simp [cacheOK, cacheSet, hr]
  | cons p rest ih =>
    simp only [cacheOK, List.all_cons, Bool.and_eq_true] at hc
    by_cases h : p.1 = k
    · simp [cacheOK, cacheSet, h, hr, hc.2]
    · have := ih hc.2
      simp only [cacheOK] at this
      simp [cacheOK, cacheSet, h, hc.1, this]

theorem cacheOK_cacheDel (c : Cache) (k : String) (hc : cacheOK c = true) :
    cacheOK (cacheDel c k) = true := by
  induction c with
  | nil => simp [cacheOK, cacheDel]
  | cons p rest ih =>
    simp only [cacheOK, List.all_cons, Bool.and_eq_true] at hc
    have := ih hc.2
    simp only [cacheOK] at this
    by_cases h : p.1 = k
    · simp [cacheOK, cacheDel, h, this]
    · simp [cacheOK, cacheDel, h, hc.1, this]

theorem cacheOK_mem (c : Cache) (k : String) (r : JMap)
    (hc : cacheOK c = true) (h : cacheGet c k = some r) : isNoError r = true := by
  induction c with
  | nil => simp [cacheGet] at h
  | cons p rest ih =>
    simp only [cacheOK, List.all_cons, Bool.and_eq_true] at hc
    by_cases hp : p.1 = k
    · simp only [cacheGet, hp, if_true, Option.some.injEq] at h
      subst h
      exact hc.1
    · simp only [cacheGet, hp, if_false] at h
      exact ih hc.2 h

/-! ### Lemmas about `ensureCache` -/

theorem ensureCache_hasInitialized (st : SDKState) (now : Nat) :
    (ensureCache st now).hasInitialized = st.hasInitialized := by
  unfold ensureCache
  split
  · rfl
  · split <;> rfl

theorem ensureCache_useCache (st : SDKState) (now : Nat) :
    (ensureCache st now).useCache = st.useCache := by
  unfold ensureCache
  split
  · rfl
  · split <;> rfl

theorem ensureCache_projectID (st : SDKState) (now : Nat) :
    (ensureCache st now).projectID = st.projectID := by
  unfold ensureCache
  split
  · rfl
  · split <;> rfl

theorem ensureCache_cacheDuration (st : SDKState) (now : Nat) :
    (ensureCache st now).cacheDuration = st.cacheDuration := by
  unfold ensureCache
  split
  · rfl
  · split <;> rfl

theorem ensureCache_endpoint (st : SDKState) (now : Nat) :
    (ensureCache st now).endpoint = st.endpoint := by
  unfold ensureCache
  split
  · rfl
  · split <;> rfl

theorem ensureCache_of_fresh (st : SDKState) (now : Nat)
    (h : ¬ st.cacheExpiration < now) : ensureCache st now = st := by
  unfold ensureCache
  split
  · rfl
  · simp [h]

theorem ensureCache_of_disabled (st : SDKState) (now : Nat)
    (h : st.useCache = false) : ensureCache st now = st := by
  unfold ensureCache
  simp [h]

theorem ensureCache_of_stale (st : SDKState) (now : Nat) (h1 : st.useCache = true)
    (h2 : st.cacheExpiration < now) :
    ensureCache st now =
      { st with cacheExpiration := now + st.cacheDuration, cacheSession := [] } := by
  unfold ensureCache
  simp [h1, h2]

theorem cacheGet_ensureCache_none (st : SDKState) (now : Nat) (k : String)
    (h : cacheGet st.cacheSession k = none) :
    cacheGet (ensureCache st now).cacheSession k = none := by
  unfold ensureCache
  split
  · exact h
  · split
    · simp [cacheGet]
    · exact h

/-! ### Structural facts about the public operations -/

theorem runOp_ok_inv (op : Op) (st : SDKState) (now : Nat) (tp : Transport)
    (o : OpOut) (h : runOp op st now tp = Except.ok o) :
    st.hasInitialized = true ∧ o.st.hasInitialized = true ∧
    o.st.useCache = st.useCache ∧ o.st.projectID = st.projectID ∧
    o.st.cacheDuration = st.cacheDuration ∧ o.st.endpoint = st.endpoint := by
  cases op <;>
    simp only [runOp, SignInEmail, SignInEmailVerify, SignInSocial, SignInSocialVerify,
      SessionInfo, SessionRefresh, SessionInvalidate] at h <;>
    (repeat' split at h) <;>
    (try cases h) <;>
    simp_all [ensureCache_hasInitialized, ensureCache_useCache, ensureCache_projectID,
      ensureCache_cacheDuration, ensureCache_endpoint]

theorem runOp_populates (op : Op) (st : SDKState) (now : Nat) (tp : Transport)
    (o : OpOut) (T : String) (h : runOp op st now tp = Except.ok o)
    (huc : st.useCache = true) (hok : isNoError o.result = true)
    (hkey : popKey op o.result = some T) :
    cacheGet o.st.cacheSession T = some o.result := by
  cases op with
  | signInEmail e => simp [popKey] at hkey
  | signInSocial ty => simp [popKey] at hkey
  | sessionRefresh tok => simp [popKey] at hkey
  | sessionInvalidate tok ty => simp [popKey] at hkey
  | signInEmailVerify e c =>
    simp only [runOp, SignInEmailVerify] at h
    repeat' split at h
    all_goals (try cases h)
    all_goals simp_all [popKey, cacheGet_cacheSet_self]
  | signInSocialVerify ty ac =>
    simp only [runOp, SignInSocialVerify] at h
    repeat' split at h
    all_goals (try cases h)
    all_goals simp_all [popKey, cacheGet_cacheSet_self]
  | sessionInfo tok =>
    simp only [runOp, SessionInfo] at h
    split at h
    · cases h
    · split at h
      · rename_i cached heq
        cases h
        split at heq
        · simp only [popKey, Option.some.injEq] at hkey
          subst hkey
          exact heq
        · cases heq
      · split at h
        · cases h
          simp only [popKey, Option.some.injEq] at hkey
          subst hkey
          exact cacheGet_cacheSet_self _ _ _
        · cases h
          simp_all

theorem sessionInfo_cacheHit (st : SDKState) (now : Nat) (tp : Transport) (T : String)
    (r : JMap) (h1 : st.hasInitialized = true) (h2 : st.useCache = true)
    (h3 : now < st.cacheExpiration) (h4 : cacheGet st.cacheSession T = some r) :
    SessionInfo st now tp T = Except.ok ⟨r, st, false⟩ := by
  have hst : ensureCache st now = st := ensureCache_of_fresh st now (by omega)
  simp [SessionInfo, h1, hst, h2, h3, h4]

/-! ### Concrete states and transports used by the witnesses -/

/-- A transport that always fails at the connection level. -/
def tpFail : Transport := fun _ _ => .connFail

/-- A freshly initialized state: caching on, 30 second window, clock at 0. -/
def stW : SDKState :=
  { hasInitialized := true, endpoint := "api.example.com", projectID := "proj1",
    useCache := true, cacheDuration := 30, cacheSession := [], cacheExpiration := 30 }

/-- A transport whose 200 response carries a session token. -/
def tpW : Transport := fun _ _ =>
  .response 200 [("session_token", JVal.s "tok1"), ("email", JVal.s "a@b.com")]

/-- The record `tpW`'s response becomes after `callApiRequest` post-processing. -/
def recW : JMap :=
  [("session_token", JVal.s "tok1"), ("email", JVal.s "a@b.com"),
   ("error", JVal.s "no_error")]

/-- What `SignInEmailVerify` produces from `stW` at time 0 against `tpW`. -/
def oW : OpOut := ⟨recW, { stW with cacheSession := [("tok1", recW)] }, true⟩

/-! ### The claims -/

/-- Claim C1: after a successful `SignInEmailVerify` / `SignInSocialVerify` /
`SessionInfo` call populated the cache with a record for token `T` while
caching is enabled, a `SessionInfo T` call issued before the cache
generation expires returns exactly that cached record, leaves the state
unchanged and performs no Transport call. -/
theorem claim_C1 (op : Op) (st : SDKState) (now1 now2 : Nat) (tp1 tp2 : Transport)
    (o : OpOut) (T : String)
    (hrun : runOp op st now1 tp1 = Except.ok o)
    (huc : st.useCache = true)
    (hok : isNoError o.result = true)
    (hkey : popKey op o.result = some T)
    (hwin : now2 < o.st.cacheExpiration) :
    SessionInfo o.st now2 tp2 T = Except.ok ⟨o.result, o.st, false⟩ := by
  obtain ⟨hi, hoi, houc, h3, h4, h5⟩ := runOp_ok_inv op st now1 tp1 o hrun
  exact sessionInfo_cacheHit o.st now2 tp2 T o.result hoi (houc.trans huc) hwin
    (runOp_populates op st now1 tp1 o T hrun huc hok hkey)

theorem claim_C1_witness :
    SessionInfo oW.st 10 tpFail "tok1" = Except.ok ⟨oW.result, oW.st, false⟩ :=
  claim_C1 (.signInEmailVerify "a@b.com" "123456") stW 0 10 tpW tpFail oW "tok1"
    rfl rfl (by decide) (by decide) (by decide)

/-- Changing only the cache contents and expiration of the pre-state does not
change an operation's behaviour when `ensureCache` agrees on both states. -/
theorem runOp_congr (op : Op) (st st' : SDKState) (now : Nat) (tp : Transport)
    (h1 : st.hasInitialized = st'.hasInitialized)
    (h2 : st.useCache = st'.useCache)
    (h3 : st.projectID = st'.projectID)
    (h4 : ensureCache st now = ensureCache st' now) :
    runOp op st now tp = runOp op st' now tp := by
  cases op <;> simp only [runOp, SignInEmail, SignInEmailVerify, SignInSocial,
    SignInSocialVerify, SessionInfo, SessionRefresh, SessionInvalidate, h1, h2, h3, h4]

/-- A state observed strictly past its expiration instant, caching enabled,
with a non-empty cache. -/
def cstC2 : SDKState :=
  { hasInitialized := true, endpoint := "api.example.com", projectID := "proj1",
    useCache := true, cacheDuration := 10, cacheSession := [("tok1", recW)],
    cacheExpiration := 100 }

/-- Claim C2 counterexample: at `now = 100`, exactly the stored expiration
instant (so `now >= epochStart + windowDuration` holds), the cache-touching
call `SessionInfo "tok1"` completes with the entries map still non-empty and
the expiration not reset: the code clears only strictly after the instant
(`time.Now().After`), not at it. -/
theorem claim_C2_counterexample :
    100 ≥ cstC2.cacheExpiration ∧
    runOp (.sessionInfo "tok1") cstC2 100 tpFail =
      Except.ok ⟨connectionError, cstC2, true⟩ ∧
    cstC2.cacheSession ≠ [] ∧
    cstC2.cacheExpiration ≠ 100 + cstC2.cacheDuration :=
  ⟨by decide, rfl, by decide, by decide⟩

/-- Claim C2 (amended): as soon as `now` is strictly past
`epochStart + windowDuration` (the stored expiration instant), the next
cache-touching operation observes an empty entries map regardless of prior
contents, with the expiration reset to `now + windowDuration`, before any
read or write: every operation behaves exactly as it would on the cleared,
reset state. -/
theorem claim_C2 (st : SDKState) (now : Nat)
    (h2 : st.useCache = true) (h3 : st.cacheExpiration < now) :
    ensureCache st now =
      { st with cacheSession := [], cacheExpiration := now + st.cacheDuration } ∧
    ∀ (op : Op) (tp : Transport),
      runOp op st now tp =
        runOp op
          { st with cacheSession := [], cacheExpiration := now + st.cacheDuration }
          now tp := by
  have hstale := ensureCache_of_stale st now h2 h3
  refine ⟨hstale, fun op tp => ?_⟩
  refine runOp_congr op st _ now tp rfl rfl rfl ?_
  rw [hstale, ensureCache_of_fresh _ now (by simp)]

theorem claim_C2_witness :
    ensureCache cstC2 101 =
      { cstC2 with cacheSession := [], cacheExpiration := 101 + cstC2.cacheDuration } ∧
    runOp (.sessionInfo "tok1") cstC2 101 tpFail =
      runOp (.sessionInfo "tok1")
        { cstC2 with cacheSession := [], cacheExpiration := 101 + cstC2.cacheDuration }
        101 tpFail :=
  ⟨(claim_C2 cstC2 101 rfl (by decide)).1,
   (claim_C2 cstC2 101 rfl (by decide)).2 (.sessionInfo "tok1") tpFail⟩

/-- Claim C3: after a successful `SessionRefresh old` that returns a new
token different from the old one, with caching enabled, the post-call cache
holds the new token's record and no record under the old token: the delete
of the old key and the insert of the new key happen in one critical
section, so this is the only observable cache state. -/
theorem claim_C3 (st : SDKState) (now : Nat) (tp : Transport) (old newTok : String)
    (o : OpOut)
    (h : runOp (.sessionRefresh old) st now tp = Except.ok o)
    (huc : st.useCache = true)
    (hok : isNoError o.result = true)
    (htok : jget o.result "session_token" = some (JVal.s newTok))
    (hne : newTok ≠ old) :
    cacheGet o.st.cacheSession old = none ∧
    cacheGet o.st.cacheSession newTok = some o.result := by
  simp only [runOp, SessionRefresh] at h
  split at h
  · cases h
  · split at h
    · split at h
      · rename_i tok heq
        cases h
        dsimp only at htok ⊢
        rw [heq, Option.some.injEq, JVal.s.injEq] at htok
        subst htok
        refine ⟨?_, cacheGet_cacheSet_self _ _ _⟩
        rw [cacheGet_cacheSet_ne _ _ _ _ (Ne.symm hne)]
        exact cacheGet_cacheDel_self _ _
      · cases h
    · cases h
      simp_all

theorem claim_C3_witness :
    cacheGet ({ stW with cacheSession := cacheSet (cacheDel stW.cacheSession "tok0") "tok1" recW } : SDKState).cacheSession "tok0" = none ∧
    cacheGet ({ stW with cacheSession := cacheSet (cacheDel stW.cacheSession "tok0") "tok1" recW } : SDKState).cacheSession "tok1" = some recW :=
  claim_C3 stW 0 tpW "tok0" "tok1"
    ⟨recW, { stW with cacheSession := cacheSet (cacheDel stW.cacheSession "tok0") "tok1" recW }, true⟩
    rfl rfl (by decide) (by decide) (by decide)

/-- The connection-failure `OpOut` used by the C4 witness. -/
def oFailW : OpOut := ⟨connectionError, stW, true⟩

/-- Claim C4: against a Transport that fails at the connection level, any
public operation that actually reaches the Transport returns the
`connection_error` result and leaves the cache exactly as the initial
`ensureCache` epoch check left it: no entry is inserted, overwritten or
removed. -/
theorem claim_C4 (op : Op) (st : SDKState) (now : Nat) (o : OpOut)
    (h : runOp op st now tpFail = Except.ok o)
    (ht : o.usedTransport = true) :
    o.result = connectionError ∧ o.st = ensureCache st now := by
  cases op <;>
    simp only [runOp, SignInEmail, SignInEmailVerify, SignInSocial, SignInSocialVerify,
      SessionInfo, SessionRefresh, SessionInvalidate] at h <;>
    (repeat' split at h) <;>
    (try cases h) <;>
    simp_all [tpFail, callApiRequest, callApiResult, connectionError, isNoError, jget]

theorem claim_C4_witness :
    oFailW.result = connectionError ∧ oFailW.st = ensureCache stW 0 :=
  claim_C4 (.signInEmail "a@b.com") stW 0 oFailW rfl rfl

theorem cacheOK_ensureCache (st : SDKState) (now : Nat)
    (h : cacheOK st.cacheSession = true) :
    cacheOK (ensureCache st now).cacheSession = true := by
  unfold ensureCache
  split
  · exact h
  · split
    · simp [cacheOK]
    · exact h

theorem runOp_preserves_cacheOK (op : Op) (st : SDKState) (now : Nat)
    (tp : Transport) (o : OpOut) (h : runOp op st now tp = Except.ok o)
    (hc : cacheOK st.cacheSession = true) :
    cacheOK o.st.cacheSession = true := by
  have hens := cacheOK_ensureCache st now hc
  cases op <;>
    simp only [runOp, SignInEmail, SignInEmailVerify, SignInSocial, SignInSocialVerify,
      SessionInfo, SessionRefresh, SessionInvalidate] at h <;>
    (repeat' split at h) <;>
    (try cases h) <;>
    simp_all [cacheOK_cacheSet, cacheOK_cacheDel]

/-- Claim C5: at every observable SDK state (freshly initialized, or
produced from an observable state by any public operation), every record
present in the session cache has `error == "no_error"`: error responses are
never cached. -/
theorem claim_C5 (st : SDKState) (h : Reachable st) :
    cacheOK st.cacheSession = true := by
  induction h with
  | initialized now pe pid uc cd st0 hinit =>
    simp only [Initialize, initialState] at hinit
    cases hinit
    simp [cacheOK]
  | step op st0 now tp o h1 h2 ih => exact runOp_preserves_cacheOK op st0 now tp o h2 ih

theorem claim_C5_witness : cacheOK stW.cacheSession = true :=
  claim_C5 stW (Reachable.initialized 0 "api.example.com" "proj1" true 30 stW rfl)

/-- A transport whose response is HTTP 200 with an empty JSON object: a
well-formed response shape the remote service could produce. -/
def tp200empty : Transport := fun _ _ => .response 200 []

/-- Claim C6, evaluated at the failing input: on an HTTP 200 response whose
JSON object lacks a `session_token` field, `callApiRequest` injects
`error = "no_error"` and `SignInEmailVerify` then hits the
`result["session_token"].(string)` type assertion and panics instead of
returning a structured result, contradicting the policy that only the two
lifecycle precondition violations may escape as panics. -/
theorem claim_C6_bug :
    runOp (.signInEmailVerify "a@b.com" "123456") stW 0 tp200empty =
      Except.error GoPanic.typeAssertion ∧
    callApiRequest tp200empty "/signin/emailverify"
      [("project_id", JVal.s "proj1"), ("email", JVal.s "a@b.com"),
       ("code", JVal.s "123456")] = [("error", JVal.s "no_error")] :=
  ⟨rfl, rfl⟩

/-- Claim C7: a second `Initialize` call, with any arguments, fails with the
AlreadyInitialized panic, the globals it would have written are left exactly
as the first call set them, and the first call's configuration (endpoint,
project id, cache flag, cache duration) is still in force. -/
theorem claim_C7 (st0 st : SDKState) (now now2 cd cd2 : Nat)
    (pe pid pe2 pid2 : String) (uc uc2 : Bool)
    (h : Initialize st0 now pe pid uc cd = Except.ok st) :
    Initialize st now2 pe2 pid2 uc2 cd2 = Except.error GoPanic.alreadyInitialized ∧
    applyInit st now2 pe2 pid2 uc2 cd2 = st ∧
    st.endpoint = pe ∧ st.projectID = pid ∧ st.useCache = uc ∧
    st.cacheDuration = cd := by
  simp only [Initialize] at h
  split at h
  · cases h
  · cases h
    refine ⟨by simp [Initialize], by simp [applyInit, Initialize], rfl, rfl, rfl, rfl⟩

theorem claim_C7_witness :
    Initialize stW 5 "other" "p2" false 0 = Except.error GoPanic.alreadyInitialized ∧
    applyInit stW 5 "other" "p2" false 0 = stW ∧
    stW.endpoint = "api.example.com" ∧ stW.projectID = "proj1" ∧
    stW.useCache = true ∧ stW.cacheDuration = 30 :=
  claim_C7 initialState stW 0 5 30 0 "api.example.com" "proj1" "other" "p2" true false rfl

/-- Claim C8: after a `SessionInvalidate T mode` call that returned
`"no_error"` with caching enabled, `T` is absent from the cache, and any
subsequent `SessionInfo T` cannot be a cache hit: it invokes the Transport
and returns the Transport's (post-processed) response. -/
theorem claim_C8 (st : SDKState) (now : Nat) (tp : Transport) (T mode : String)
    (o : OpOut)
    (h : runOp (.sessionInvalidate T mode) st now tp = Except.ok o)
    (huc : st.useCache = true)
    (hok : isNoError o.result = true) :
    cacheGet o.st.cacheSession T = none ∧
    ∀ (now2 : Nat) (tp2 : Transport) (o2 : OpOut),
      SessionInfo o.st now2 tp2 T = Except.ok o2 →
      o2.usedTransport = true ∧
      o2.result = callApiRequest tp2 "/session/info"
        [("project_id", JVal.s o.st.projectID), ("session_token", JVal.s T)] := by
  have hdel : cacheGet o.st.cacheSession T = none := by
    simp only [runOp, SessionInvalidate] at h
    split at h
    · cases h
    · split at h
      · cases h
        exact cacheGet_cacheDel_self _ _
      · cases h
        simp_all
  refine ⟨hdel, fun now2 tp2 o2 h2 => ?_⟩
  have hnone : cacheGet (ensureCache o.st now2).cacheSession T = none :=
    cacheGet_ensureCache_none o.st now2 T hdel
  simp only [SessionInfo] at h2
  split at h2
  · cases h2
  · split at h2
    · rename_i cached heq
      split at heq
      · rw [hnone] at heq
        cases heq
      · cases heq
    · split at h2
      · cases h2
        exact ⟨rfl, rfl⟩
      · cases h2
        exact ⟨rfl, rfl⟩

/-- The post-state of the C8 witness invalidate call. -/
def oInvW : OpOut :=
  ⟨[("error", JVal.s "no_error")],
   { oW.st with cacheSession := cacheDel oW.st.cacheSession "tok1" }, true⟩

theorem claim_C8_witness :
    cacheGet oInvW.st.cacheSession "tok1" = none ∧
    (⟨connectionError, oInvW.st, true⟩ : OpOut).usedTransport = true ∧
    (⟨connectionError, oInvW.st, true⟩ : OpOut).result =
      callApiRequest tpFail "/session/info"
        [("project_id", JVal.s oInvW.st.projectID), ("session_token", JVal.s "tok1")] :=
  ⟨(claim_C8 oW.st 5 tp200empty "tok1" "only_this" oInvW rfl rfl (by decide)).1,
   (claim_C8 oW.st 5 tp200empty "tok1" "only_this" oInvW rfl rfl (by decide)).2
     6 tpFail ⟨connectionError, oInvW.st, true⟩ rfl⟩

/-- Claim C9: the Transport layer's post-processing sets the `error` field
of any HTTP 200 response to the literal `"no_error"` (injecting it when
absent, overwriting it when present), and returns any non-200 parsed
response unchanged, its `error` field included. -/
theorem claim_C9 (status : Nat) (body : JMap) (hne : status ≠ 200) :
    jget (callApiResult (.response 200 body)) "error" = some (JVal.s "no_error") ∧
    callApiResult (.response status body) = body := by
  constructor
  · simp [callApiResult, jget_jset_self]
  · simp [callApiResult, hne]

theorem claim_C9_witness :
    jget (callApiResult (.response 200 [("error", JVal.s "bad_session_token")]))
      "error" = some (JVal.s "no_error") ∧
    callApiResult (.response 404 [("error", JVal.s "bad_session_token")]) =
      [("error", JVal.s "bad_session_token")] :=
  claim_C9 404 [("error", JVal.s "bad_session_token")] (by decide)

/-- Claim C10: with caching disabled at initialization, every public
operation is a pure passthrough: it always invokes the Transport, returns
the Transport's (post-processed) response unchanged, and leaves the state
(the cache included) exactly as it was, performing no cache read, write,
removal or epoch reset. -/
theorem claim_C10 (op : Op) (st : SDKState) (now : Nat) (tp : Transport)
    (h1 : st.hasInitialized = true) (h2 : st.useCache = false) :
    runOp op st now tp =
      Except.ok ⟨callApiRequest tp (opPath op) (opBody op st), st, true⟩ := by
  have hens := ensureCache_of_disabled st now h2
  cases op <;>
    simp [runOp, SignInEmail, SignInEmailVerify, SignInSocial, SignInSocialVerify,
      SessionInfo, SessionRefresh, SessionInvalidate, opPath, opBody, h1, h2, hens]

/-- `stW` with caching disabled. -/
def stNC : SDKState := { stW with useCache := false }

theorem claim_C10_witness :
    runOp (.sessionInfo "tok1") stNC 0 tpFail =
      Except.ok ⟨callApiRequest tpFail (opPath (.sessionInfo "tok1"))
          (opBody (.sessionInfo "tok1") stNC), stNC, true⟩ :=
  claim_C10 (.sessionInfo "tok1") stNC 0 tpFail rfl rfl

end CodeAuth
